import Mathlib

/-!
Verification of the recipe API backend against its specification.

The embedding models the repository source under a shallow translation:
records of the data model become Lean structures, the queryset and
create/update operations of the view layer become pure functions over
lists of records, and HTTP-level dispatch becomes a function from an
endpoint and an authentication flag to a gate result.  Parts of the
repository that exist only through their tests (the user manager in
core/models.py and the serializer layer in recipe/serializers.py) are
modelled from the specification text; each such definition carries a
doc comment saying so.
-/

namespace RecipeApi

/-- A stored user account.  Only the fields the specification claims
talk about are modelled; the password is hashed by the framework and
never inspected by any claim, so it is not stored here. -/
structure User where
  email : String
  name : String
  isStaff : Bool
  isSuperuser : Bool
deriving DecidableEq

/-- A tag record: owned by exactly one user, with a name (core model
Tag, seen through its tests and the view layer). -/
structure Tag where
  id : Nat
  userId : Nat
  name : String
deriving DecidableEq

/-- An ingredient record: owned by exactly one user, with a name. -/
structure Ingredient where
  id : Nat
  userId : Nat
  name : String
deriving DecidableEq

/-- A recipe record: owned by exactly one user, with title, time in
minutes, decimal price, optional link, optional stored image path, and
many-to-many id sets for tags and ingredients. -/
structure Recipe where
  id : Nat
  userId : Nat
  title : String
  timeMinutes : Nat
  price : Rat
  link : Option String
  image : Option String
  tagIds : List Nat
  ingredientIds : List Nat
deriving DecidableEq

/-- An authenticated HTTP request as the view layer sees it: the
identity of the requesting user and the query parameters. -/
structure Request where
  userId : Nat
  queryParams : List (String × String)
deriving DecidableEq

/-- Descending order on a string key: a comes before b when the key of
b is at most the key of a.  This is the order produced by the ORM
order_by with a minus-prefixed field name. -/
def keyDesc (key : α → String) (a b : α) : Prop :=
  key b ≤ key a

instance (key : α → String) : DecidableRel (keyDesc key) :=
  fun a b => inferInstanceAs (Decidable (key b ≤ key a))

instance (key : α → String) : IsTotal α (keyDesc key) :=
  ⟨fun a b => le_total (key b) (key a)⟩

instance (key : α → String) : IsTrans α (keyDesc key) :=
  ⟨fun _ _ _ hab hbc => le_trans hbc hab⟩

/-- The ORM order_by on a minus-prefixed string field: a stable sort
of the records into descending key order. -/
def orderByDesc (key : α → String) (l : List α) : List α :=
  List.insertionSort (keyDesc key) l

/-- BaseRecipeAttrViewSet.get_queryset (views.py lines 16-18): keeps
only the records whose user equals the requesting user, then orders by
name descending.  Generic over the record type, as the Python base
class is shared by the tag and the ingredient viewsets. -/
def BaseRecipeAttrViewSet.get_queryset (userOf : α → Nat) (nameOf : α → String)
    (queryset : List α) (req : Request) : List α :=
  orderByDesc nameOf (queryset.filter fun x => userOf x == req.userId)

/-- TagViewSet: the base viewset instantiated at Tag records. -/
def TagViewSet.get_queryset (queryset : List Tag) (req : Request) : List Tag :=
  BaseRecipeAttrViewSet.get_queryset Tag.userId Tag.name queryset req

/-- IngredientViewSet: the base viewset instantiated at Ingredient
records. -/
def IngredientViewSet.get_queryset (queryset : List Ingredient) (req : Request) :
    List Ingredient :=
  BaseRecipeAttrViewSet.get_queryset Ingredient.userId Ingredient.name queryset req

/-- RecipeViewSet.get_queryset (views.py lines 46-48): keeps only the
records whose user equals the requesting user, then orders by title
descending.  The body reads nothing but request.user: in particular
the tags and ingredients query parameters of the request are never
consulted, so no tag or ingredient filtering happens here. -/
def RecipeViewSet.get_queryset (queryset : List Recipe) (req : Request) : List Recipe :=
  orderByDesc Recipe.title (queryset.filter fun r => r.userId == req.userId)

/-- Modelled from the spec: recipe/serializers.py is absent from src/
(only its callers and tests are).  Per the spec the serializers
translate wire payloads to records; the owning user never comes from
the payload, only from keyword arguments the view passes to save, and
the owner column is required (every tag is owned by exactly one user),
so a save that supplies no owner cannot produce a stored record. -/
def TagSerializer.save (newId : Nat) (userKwarg : Option Nat) (name : String) :
    Option Tag :=
  userKwarg.map fun uid => { id := newId, userId := uid, name := name }

/-- Modelled from the spec: ingredient counterpart of the absent
serializer layer, identical in shape to the tag serializer. -/
def IngredientSerializer.save (newId : Nat) (userKwarg : Option Nat) (name : String) :
    Option Ingredient :=
  userKwarg.map fun uid => { id := newId, userId := uid, name := name }

/-- The validated create payload of the recipe serializer: per the
spec, create accepts title, time, price, link, tag-id list and
ingredient-id list; no user field is accepted from the wire. -/
structure RecipePayload where
  title : String
  timeMinutes : Nat
  price : Rat
  link : Option String
  tagIds : List Nat
  ingredientIds : List Nat
deriving DecidableEq

/-- Modelled from the spec: recipe/serializers.py is absent from src/.
RecipeSerializer.save builds a recipe from the validated payload plus
the keyword arguments the view passes; the owner column is required
(every recipe is owned by exactly one user), so a save that supplies
no owner cannot produce a stored record. -/
def RecipeSerializer.save (newId : Nat) (userKwarg : Option Nat) (p : RecipePayload) :
    Option Recipe :=
  userKwarg.map fun uid =>
    { id := newId, userId := uid, title := p.title, timeMinutes := p.timeMinutes,
      price := p.price, link := p.link, image := none,
      tagIds := p.tagIds, ingredientIds := p.ingredientIds }

/-- BaseRecipeAttrViewSet.perform_create (views.py lines 20-22): the
view calls serializer.save with user set to the requesting user.
Generic over the serializer, as the base class is shared by the tag
and the ingredient viewsets. -/
def BaseRecipeAttrViewSet.perform_create (save : Option Nat → β → Option α)
    (req : Request) (payload : β) : Option α :=
  save (some req.userId) payload

/-- Tag creation through the base viewset. -/
def TagViewSet.perform_create (req : Request) (newId : Nat) (name : String) : Option Tag :=
  BaseRecipeAttrViewSet.perform_create (TagSerializer.save newId) req name

/-- Ingredient creation through the base viewset. -/
def IngredientViewSet.perform_create (req : Request) (newId : Nat) (name : String) :
    Option Ingredient :=
  BaseRecipeAttrViewSet.perform_create (IngredientSerializer.save newId) req name

/-- RecipeViewSet declares no perform_create override (views.py lines
39-55), so the framework default runs: serializer.save() with no
keyword arguments, hence no owner is passed. -/
def RecipeViewSet.perform_create (_req : Request) (newId : Nat) (p : RecipePayload) :
    Option Recipe :=
  RecipeSerializer.save newId none p

/-- The two serializer classes the recipe viewset can select between:
the id-only list shape and the nested detail shape. -/
inductive SerializerClass
  | recipeSerializer
  | recipeDetailSerializer
deriving DecidableEq

/-- RecipeViewSet.get_serializer_class (views.py lines 50-55): the
detail serializer when the action is retrieve, otherwise the
serializer_class attribute, which is the list serializer. -/
def RecipeViewSet.get_serializer_class (action : String) : SerializerClass :=
  if action = "retrieve" then SerializerClass.recipeDetailSerializer
  else SerializerClass.recipeSerializer

/-- The actions RecipeViewSet exposes (views.py lines 39-55): the
class extends viewsets.ModelViewSet, whose mixins supply exactly the
six standard actions, and its body declares no extra action method (in
particular no upload_image action). -/
def RecipeViewSet.actions : List String :=
  ["list", "create", "retrieve", "update", "partial_update", "destroy"]

/-- The endpoints the specification talks about, one constructor per
endpoint of the tag, ingredient and recipe APIs. -/
inductive Endpoint
  | tagList
  | tagCreate
  | ingredientList
  | ingredientCreate
  | recipeList
  | recipeCreate
  | recipeRetrieve
  | recipeUpdate
  | recipePatch
  | recipeDestroy
  | recipeUploadImage
deriving DecidableEq

/-- Which endpoints the URL router registers, derived from the
viewsets in views.py: the tag and ingredient viewsets carry the list
and create mixins, the recipe viewset carries the six ModelViewSet
actions, and no upload-image action exists anywhere, so no
upload-image route is registered. -/
def routed (e : Endpoint) : Bool :=
  match e with
  | Endpoint.recipeUploadImage => false
  | _ => true

/-- Outcome of request dispatch before any handler logic runs. -/
inductive GateResult
  | notFound
  | unauthorized
  | handled
deriving DecidableEq

/-- HTTP status of a gate outcome: an unregistered path is answered
404 by URL resolution, a failed authentication check is answered 401;
a handled request goes on to the action (status then depends on the
action and is not decided by the gate). -/
def GateResult.status : GateResult → Nat
  | GateResult.notFound => 404
  | GateResult.unauthorized => 401
  | GateResult.handled => 200

/-- Request dispatch as views.py configures it: both viewsets set
TokenAuthentication and IsAuthenticated, so every routed action checks
authentication before running and an unauthenticated request is
rejected with 401 before any data is read or written; a request to an
unregistered path never reaches a view at all and is answered 404. -/
def dispatch (e : Endpoint) (authenticated : Bool) : GateResult :=
  if routed e = false then GateResult.notFound
  else if authenticated = false then GateResult.unauthorized
  else GateResult.handled

/-- The wire payload of a recipe update: each field optional, present
when the client supplied it. -/
structure UpdatePayload where
  title : Option String
  timeMinutes : Option Nat
  price : Option Rat
  link : Option (Option String)
  tagIds : Option (List Nat)
  ingredientIds : Option (List Nat)
deriving DecidableEq

/-- Modelled from the spec: the update path of the absent serializer
layer.  A full update (HTTP PUT) replaces provided fields and clears
omitted many-to-many relations. -/
def putUpdate (r : Recipe) (p : UpdatePayload) : Recipe :=
  { r with
    title := p.title.getD r.title
    timeMinutes := p.timeMinutes.getD r.timeMinutes
    price := p.price.getD r.price
    link := p.link.getD r.link
    tagIds := p.tagIds.getD []
    ingredientIds := p.ingredientIds.getD [] }

/-- Modelled from the spec: a partial update (HTTP PATCH) replaces
provided fields and leaves every omitted field, relations included,
unchanged. -/
def patchUpdate (r : Recipe) (p : UpdatePayload) : Recipe :=
  { r with
    title := p.title.getD r.title
    timeMinutes := p.timeMinutes.getD r.timeMinutes
    price := p.price.getD r.price
    link := p.link.getD r.link
    tagIds := p.tagIds.getD r.tagIds
    ingredientIds := p.ingredientIds.getD r.ingredientIds }

/-- Lowercases everything after the last at sign of the character
list, leaving the rest untouched; characters before the last at sign,
and the whole list when no at sign occurs, are unchanged. -/
def lowerDomain : List Char → List Char
  | [] => []
  | c :: cs =>
    if '@' ∈ cs then c :: lowerDomain cs
    else if c = '@' then c :: cs.map Char.toLower
    else c :: lowerDomain cs

/-- Modelled from the spec: core/models.py is absent from src/ (only
its tests are).  Per the spec the user manager normalizes email domain
casing to lowercase before persisting: the domain part, everything
after the last at sign, is lowercased and the local part kept as
given. -/
def normalize_email (email : String) : String :=
  String.mk (lowerDomain email.data)

/-- Modelled from the spec: core/models.py is absent from src/.
create_user fails with a validation error when the email is empty or
absent, and otherwise persists a user whose email is the normalized
input; the password is hashed by the framework before storage and the
extra fields (such as name) are passed through unchanged, so neither
is modelled beyond a placeholder. -/
def create_user (email : Option String) (_password : String) : Option User :=
  match email with
  | none => none
  | some e =>
    if e = "" then none
    else some { email := normalize_email e, name := "",
                isStaff := false, isSuperuser := false }

/-- Recipe of the tag-filter scenario that carries the first supplied
tag (test_filter_recipes_by_tags). -/
def thaiCurry : Recipe :=
  { id := 1, userId := 1, title := "Thai vegetable curry", timeMinutes := 10, price := 5,
    link := none, image := none, tagIds := [1], ingredientIds := [] }

/-- Recipe of the tag-filter scenario that carries the second supplied
tag. -/
def aubergineTahini : Recipe :=
  { id := 2, userId := 1, title := "Aubergine with tahini", timeMinutes := 10, price := 5,
    link := none, image := none, tagIds := [2], ingredientIds := [] }

/-- Recipe of the tag-filter scenario that carries none of the
supplied tags and should therefore be excluded from a filtered
listing. -/
def fishAndChips : Recipe :=
  { id := 3, userId := 1, title := "Fish and chips", timeMinutes := 10, price := 5,
    link := none, image := none, tagIds := [], ingredientIds := [] }

/-- A recipe-list request of user 1 carrying the comma-separated tag
filter for tag ids 1 and 2. -/
def tagFilterRequest : Request :=
  { userId := 1, queryParams := [("tags", "1,2")] }

/-- C1: for every authenticated user, the list operations of the tag,
ingredient, and recipe endpoints return only records whose owning user
equals the requesting user; records owned by any other user never
appear in the response. -/
theorem c1_list_limited_to_owner (tags : List Tag) (ings : List Ingredient)
    (recs : List Recipe) (req : Request) :
    (∀ t ∈ TagViewSet.get_queryset tags req, t.userId = req.userId) ∧
    (∀ i ∈ IngredientViewSet.get_queryset ings req, i.userId = req.userId) ∧
    (∀ r ∈ RecipeViewSet.get_queryset recs req, r.userId = req.userId) := by
  refine ⟨fun t ht => ?_, fun i hi => ?_, fun r hr => ?_⟩
  · simp only [TagViewSet.get_queryset, BaseRecipeAttrViewSet.get_queryset, orderByDesc,
      List.mem_insertionSort, List.mem_filter, beq_iff_eq] at ht
    exact ht.2
  · simp only [IngredientViewSet.get_queryset, BaseRecipeAttrViewSet.get_queryset, orderByDesc,
      List.mem_insertionSort, List.mem_filter, beq_iff_eq] at hi
    exact hi.2
  · simp only [RecipeViewSet.get_queryset, orderByDesc,
      List.mem_insertionSort, List.mem_filter, beq_iff_eq] at hr
    exact hr.2

/-- Witness for C1: in a store holding a tag of user 1 and a tag of
user 2, the tag listed for user 1 is owned by user 1. -/
theorem c1_list_limited_to_owner_witness :
    (⟨1, 1, "Vegan"⟩ : Tag) ∈
      TagViewSet.get_queryset [⟨1, 1, "Vegan"⟩, ⟨2, 2, "Dessert"⟩] ⟨1, []⟩ ∧
    (⟨1, 1, "Vegan"⟩ : Tag).userId = (⟨1, []⟩ : Request).userId := by
  have hmem : (⟨1, 1, "Vegan"⟩ : Tag) ∈
      TagViewSet.get_queryset [⟨1, 1, "Vegan"⟩, ⟨2, 2, "Dessert"⟩] ⟨1, []⟩ := by
    simp only [TagViewSet.get_queryset, BaseRecipeAttrViewSet.get_queryset, orderByDesc,
      List.mem_insertionSort]
    decide
  exact ⟨hmem,
    (c1_list_limited_to_owner [⟨1, 1, "Vegan"⟩, ⟨2, 2, "Dessert"⟩] [] [] ⟨1, []⟩).1 _ hmem⟩

/-- C2 fails on the code: the recipe-list queryset never reads the
tags query parameter, so in the scenario of
test_filter_recipes_by_tags the recipe carrying none of the supplied
tag ids still appears in the response of a request filtering on tag
ids 1 and 2. -/
theorem c2_tags_filter_ignored :
    tagFilterRequest.queryParams.lookup "tags" = some "1,2" ∧
    fishAndChips.tagIds = [] ∧
    fishAndChips ∈
      RecipeViewSet.get_queryset [thaiCurry, aubergineTahini, fishAndChips] tagFilterRequest := by
  refine ⟨rfl, rfl, ?_⟩
  simp only [RecipeViewSet.get_queryset, orderByDesc, List.mem_insertionSort]
  decide

/-- C3 fails on the code: RecipeViewSet exposes only the six standard
model-viewset actions, no upload-image action, so no request can reach
a dedicated image-upload handler at all. -/
theorem c3_no_upload_image_action :
    ¬ ("upload_image" ∈ RecipeViewSet.actions) := by
  decide

/-- C4: a full update whose payload omits the tags field leaves the
recipe with an empty tag relation, while a partial update whose
payload omits that relation field leaves the relation unchanged. -/
theorem c4_update_relation_semantics (r : Recipe) (p : UpdatePayload)
    (h : p.tagIds = none) :
    (putUpdate r p).tagIds = [] ∧ (patchUpdate r p).tagIds = r.tagIds := by
  simp [putUpdate, patchUpdate, h]

/-- Witness for C4: the scenario of test_full_update and
test_partial_update, a recipe with one tag updated by a payload that
omits the tags field. -/
theorem c4_update_relation_semantics_witness :
    (putUpdate
      { id := 1, userId := 1, title := "Sample recipe", timeMinutes := 10, price := 5,
        link := none, image := none, tagIds := [7], ingredientIds := [] }
      { title := some "Spaghetti Carbonara", timeMinutes := some 25, price := some 5,
        link := none, tagIds := none, ingredientIds := none }).tagIds = [] ∧
    (patchUpdate
      { id := 1, userId := 1, title := "Sample recipe", timeMinutes := 10, price := 5,
        link := none, image := none, tagIds := [7], ingredientIds := [] }
      { title := some "Chicken tikka", timeMinutes := none, price := none,
        link := none, tagIds := none, ingredientIds := none }).tagIds =
      ({ id := 1, userId := 1, title := "Sample recipe", timeMinutes := 10, price := 5,
         link := none, image := none, tagIds := [7], ingredientIds := [] } : Recipe).tagIds :=
  ⟨(c4_update_relation_semantics
      { id := 1, userId := 1, title := "Sample recipe", timeMinutes := 10, price := 5,
        link := none, image := none, tagIds := [7], ingredientIds := [] }
      { title := some "Spaghetti Carbonara", timeMinutes := some 25, price := some 5,
        link := none, tagIds := none, ingredientIds := none } rfl).1,
   (c4_update_relation_semantics
      { id := 1, userId := 1, title := "Sample recipe", timeMinutes := 10, price := 5,
        link := none, image := none, tagIds := [7], ingredientIds := [] }
      { title := some "Chicken tikka", timeMinutes := none, price := none,
        link := none, tagIds := none, ingredientIds := none } rfl).2⟩

/-- C5 fails on the code for the recipe endpoint: the tag and
ingredient viewsets pass the requesting user to serializer.save, but
RecipeViewSet declares no perform_create override, so the framework
default saves with no owner and the created recipe cannot carry the
requesting user; creating the payload of test_creating_basic_recipe
therefore yields no stored recipe, while the same request on the tag
endpoint stores a tag owned by the requester. -/
theorem c5_recipe_create_attaches_no_owner :
    RecipeViewSet.perform_create { userId := 1, queryParams := [] } 1
      { title := "Chocolate cheesecake", timeMinutes := 30, price := 5,
        link := none, tagIds := [], ingredientIds := [] } = none ∧
    (TagViewSet.perform_create { userId := 1, queryParams := [] } 1 "Choco").map Tag.userId
      = some 1 ∧
    (IngredientViewSet.perform_create { userId := 1, queryParams := [] } 1 "Tomato").map
      Ingredient.userId = some 1 := by
  exact ⟨rfl, rfl, rfl⟩

/-- Helper for C6: lowercasing the domain of a character list that is
a local part, an at sign, and an at-sign-free domain lowercases
exactly the domain and keeps the local part. -/
theorem lowerDomain_append (l d : List Char) (hd : '@' ∉ d) :
    lowerDomain (l ++ '@' :: d) = l ++ '@' :: d.map Char.toLower := by
  induction l with
  | nil =>
    simp [lowerDomain, hd]
  | cons c l ih =>
    have hmem : '@' ∈ l ++ '@' :: d :=
      List.mem_append.mpr (Or.inr (List.mem_cons_self _ _))
    simp only [List.cons_append, lowerDomain, List.append_eq]
    rw [if_pos hmem, ih]

/-- C6: for every valid email input whose domain part contains no
further at sign, the created user stores the input email with the
domain lowercased and the local part untouched. -/
theorem c6_email_domain_normalized (l d : List Char) (pw : String)
    (hd : '@' ∉ d) :
    (create_user (some (String.mk (l ++ '@' :: d))) pw).map User.email
      = some (String.mk (l ++ '@' :: d.map Char.toLower)) := by
  have hne : String.mk (l ++ '@' :: d) ≠ "" := by
    intro h
    have hdata := congrArg String.data h
    simp at hdata
  rw [create_user, if_neg hne]
  show some (normalize_email (String.mk (l ++ '@' :: d))) = _
  rw [normalize_email]
  show some (String.mk (lowerDomain (l ++ '@' :: d))) = _
  rw [lowerDomain_append l d hd]

/-- Witness for C6: the email of test_new_user_email_normalized,
test at LONDONAPP.COM, is stored with the domain lowercased. -/
theorem c6_email_domain_normalized_witness :
    ('@' ∉ "LONDONAPP.COM".data) ∧
    (create_user (some (String.mk ("test".data ++ '@' :: "LONDONAPP.COM".data)))
        "test123").map User.email
      = some (String.mk ("test".data ++ '@' :: "LONDONAPP.COM".data.map Char.toLower)) :=
  ⟨by decide,
   c6_email_domain_normalized "test".data "LONDONAPP.COM".data "test123" (by decide)⟩

/-- C7: for every call to create_user whose email argument is empty or
absent, the call fails and no user is created. -/
theorem c7_empty_email_rejected (email : Option String) (pw : String)
    (h : email = none ∨ email = some "") :
    create_user email pw = none := by
  rcases h with h | h <;> subst h <;> simp [create_user]

/-- Witness for C7: creating a user with the empty email fails. -/
theorem c7_empty_email_rejected_witness :
    (some "" = (none : Option String) ∨ some "" = some "") ∧
    create_user (some "") "test123" = none :=
  ⟨Or.inr rfl, c7_empty_email_rejected (some "") "test123" (Or.inr rfl)⟩

/-- C8 fails on the code at the image-upload endpoint: no upload-image
action exists, so no such route is registered, and an unauthenticated
request to that path is answered 404 by URL resolution instead of the
401 the claim requires. -/
theorem c8_upload_unauthenticated_not_401 :
    dispatch Endpoint.recipeUploadImage false = GateResult.notFound ∧
    (dispatch Endpoint.recipeUploadImage false).status = 404 ∧
    (dispatch Endpoint.recipeUploadImage false).status ≠ 401 := by
  exact ⟨rfl, rfl, by decide⟩

/-- C9: the tag and ingredient list responses are ordered by name
descending and the recipe list response is ordered by title
descending; each response is a rearrangement of exactly the requester-
owned records. -/
theorem c9_list_ordered_descending (tags : List Tag) (ings : List Ingredient)
    (recs : List Recipe) (req : Request) :
    List.Sorted (keyDesc Tag.name) (TagViewSet.get_queryset tags req) ∧
    List.Sorted (keyDesc Ingredient.name) (IngredientViewSet.get_queryset ings req) ∧
    List.Sorted (keyDesc Recipe.title) (RecipeViewSet.get_queryset recs req) ∧
    List.Perm (TagViewSet.get_queryset tags req)
      (tags.filter fun t => t.userId == req.userId) ∧
    List.Perm (IngredientViewSet.get_queryset ings req)
      (ings.filter fun i => i.userId == req.userId) ∧
    List.Perm (RecipeViewSet.get_queryset recs req)
      (recs.filter fun r => r.userId == req.userId) :=
  ⟨List.sorted_insertionSort _ _, List.sorted_insertionSort _ _,
   List.sorted_insertionSort _ _, List.perm_insertionSort _ _,
   List.perm_insertionSort _ _, List.perm_insertionSort _ _⟩

/-- C10: the recipe viewset selects the nested detail serializer
exactly for the retrieve action; list, create, update and
partial-update all get the id-only list serializer. -/
theorem c10_detail_serializer_iff_retrieve (action : String) :
    (RecipeViewSet.get_serializer_class action = SerializerClass.recipeDetailSerializer
      ↔ action = "retrieve") ∧
    RecipeViewSet.get_serializer_class "list" = SerializerClass.recipeSerializer ∧
    RecipeViewSet.get_serializer_class "create" = SerializerClass.recipeSerializer ∧
    RecipeViewSet.get_serializer_class "update" = SerializerClass.recipeSerializer ∧
    RecipeViewSet.get_serializer_class "partial_update" = SerializerClass.recipeSerializer := by
  refine ⟨⟨fun h => ?_, fun h => ?_⟩, by decide, by decide, by decide, by decide⟩
  · by_contra hne
    simp only [RecipeViewSet.get_serializer_class, if_neg hne] at h
    exact SerializerClass.noConfusion h
  · simp only [RecipeViewSet.get_serializer_class, if_pos h]

end RecipeApi
